import Mathlib

/-!
# Verification of the Playwright-TS e-commerce test-utility core

Shallow embedding of the element-state poller, locator resolver, action
dispatcher, soft-assertion layer and custom test reporter of the repository
(`src/utils/element-utils.ts`, `src/utils/locator-utils.ts`,
`src/utils/action-utils.ts`, `src/setup/custom-logger.ts`), together with
theorems settling the specification claims about them.

Conventions of the embedding:
- An `async` function that may reject is modelled as returning
  `Except String α` (or `Except PWError α`): `.error` is a rejected promise,
  `.ok` a resolved one.  A `try { … } catch { log }` block turns `.error`
  into the value the catch branch produces.
- Wall-clock time is discrete, in milliseconds.  The poller's loop body
  takes no time; only the `setTimeout(…, 100)` sleep advances the clock, so
  after `k` sleeps the elapsed time is `100 * k`.
- Samples of a live-page predicate (`locator.isVisible()`, …) are supplied
  by the environment as a function from the sample index to
  `Except String Bool` (the sample may itself throw).
-/

/-- Modelled from the spec: `src/utils/timeout-constants.ts` is not present
under `src/`; the spec describes "a set of named integer millisecond budgets
(instant, small, standard, action, navigation, test-wide) with a strict
ordering instant < small < standard < action ≤ navigation ≤ test-wide".
Concrete positive values respecting that ordering; no claim depends on the
particular numbers, only on positivity and on which default each operation
picks. -/
def INSTANT_TIMEOUT : Nat := 1000

/-- Modelled from the spec: see `INSTANT_TIMEOUT`. -/
def SMALL_TIMEOUT : Nat := 5000

/-- Modelled from the spec: see `INSTANT_TIMEOUT`. -/
def STANDARD_TIMEOUT : Nat := 15000

/-- Modelled from the spec: see `INSTANT_TIMEOUT`. -/
def ACTION_TIMEOUT : Nat := 30000

/-- Modelled from the spec: see `INSTANT_TIMEOUT`. -/
def NAVIGATION_TIMEOUT : Nat := 30000

/-- Modelled from the spec: see `INSTANT_TIMEOUT`. -/
def TEST_TIMEOUT : Nat := 180000

/-- The spec's ordering of the timeout budgets holds for the modelled
values: instant < small < standard < action ≤ navigation ≤ test-wide. -/
theorem timeout_ordering :
    INSTANT_TIMEOUT < SMALL_TIMEOUT ∧ SMALL_TIMEOUT < STANDARD_TIMEOUT ∧
    STANDARD_TIMEOUT < ACTION_TIMEOUT ∧ ACTION_TIMEOUT ≤ NAVIGATION_TIMEOUT ∧
    NAVIGATION_TIMEOUT ≤ TEST_TIMEOUT := by decide

/-- Type `TimeoutOption` of `src/setup/optional-parameter-types.ts`:
an object with an optional numeric `timeout` member. -/
structure TimeoutOption where
  timeout : Option Nat := none
deriving Repr, DecidableEq

/-- JavaScript `x || d` for an optional numeric `x` (`options?.timeout || d`):
`undefined` and the falsy `0` are both replaced by the default `d`. -/
def jsOrDefault (x : Option Nat) (d : Nat) : Nat :=
  match x with
  | none => d
  | some 0 => d
  | some n => n

/-- The effective timeout an operation computes from its optional options
object: `options?.timeout || d`. -/
def effTimeout (options : Option TimeoutOption) (d : Nat) : Nat :=
  jsOrDefault (options.bind (·.timeout)) d

/-- The `while` loop shared by `isElementVisible` and `isElementHidden`
(`src/utils/element-utils.ts` lines 158–163 and 181–186):

```
while (Date.now() - startTime < timeoutInMs) {
  if (await locator.isVisible(options)) { return true; }
  await new Promise(resolve => setTimeout(resolve, 100));
}
```

`sample k` is the `k`-th draw of the polled predicate; `elapsed` is
`Date.now() - startTime`, which after `k` 100 ms sleeps is `100 * k`.
A throwing sample escapes the loop as `.error` (the `try` block around the
loop rethrows it to the enclosing `catch`); a loop that runs out of budget
falls through to `return false`. -/
def pollLoop (sample : Nat → Except String Bool) (timeoutMs : Nat)
    (elapsed k : Nat) : Except String Bool :=
  if elapsed < timeoutMs then
    match sample k with
    | .error e => .error e
    | .ok true => .ok true
    | .ok false => pollLoop sample timeoutMs (elapsed + 100) (k + 1)
  else
    .ok false
termination_by timeoutMs - elapsed
decreasing_by omega

/-- Number of samples the loop of `pollLoop` draws before returning (the
same recursion, instrumented to count calls of `sample`). -/
def pollSampleCount (sample : Nat → Except String Bool) (timeoutMs : Nat)
    (elapsed k : Nat) : Nat :=
  if elapsed < timeoutMs then
    match sample k with
    | .error _ => 1
    | .ok true => 1
    | .ok false => 1 + pollSampleCount sample timeoutMs (elapsed + 100) (k + 1)
  else
    0
termination_by timeoutMs - elapsed
decreasing_by omega

/-- Function `isElementVisible` (`src/utils/element-utils.ts` lines 153–168)
as the observable of its returned promise:

```
const timeoutInMs = options?.timeout || SMALL_TIMEOUT;
const startTime = Date.now();
try {
  while (Date.now() - startTime < timeoutInMs) {
    if (await locator.isVisible(options)) { return true; }
    await new Promise(resolve => setTimeout(resolve, 100));
  }
} catch (error) { console.log(`isElementVisible- …`); }
return false;
```

The sampled `locator.isVisible(options)` ignores the `timeout` member of
`options` (Playwright documents it as having no effect on `isVisible`), so
the sample stream is modelled independently of `options`.  The `catch`
turns any loop exception into the fall-through `return false`. -/
def isElementVisibleRun (sample : Nat → Except String Bool)
    (options : Option TimeoutOption) : Except String Bool :=
  match pollLoop sample (effTimeout options SMALL_TIMEOUT) 0 0 with
  | .error _ => .ok false
  | .ok b => .ok b

/-- Function `isElementHidden` (`src/utils/element-utils.ts` lines 176–191):
the same loop with `locator.isHidden(options)` as the sampled predicate. -/
def isElementHiddenRun (sample : Nat → Except String Bool)
    (options : Option TimeoutOption) : Except String Bool :=
  match pollLoop sample (effTimeout options SMALL_TIMEOUT) 0 0 with
  | .error _ => .ok false
  | .ok b => .ok b

/-- The boolean an `await isElementVisible(…)` call observes. -/
def isElementVisibleBool (sample : Nat → Except String Bool)
    (options : Option TimeoutOption) : Bool :=
  ((isElementVisibleRun sample options).toOption).getD false

/-- Modelled from the spec: the poller the claim describes, in which "any
exception raised by a sample of the predicate is caught … the exception is
treated as a 'not yet true' sample (polling continues until the timeout
budget is exhausted)".  Identical to `pollLoop` except that a throwing
sample behaves as a `false` sample and the loop keeps going. -/
def pollLoopSpecContinue (sample : Nat → Except String Bool) (timeoutMs : Nat)
    (elapsed k : Nat) : Bool :=
  if elapsed < timeoutMs then
    match sample k with
    | .error _ => pollLoopSpecContinue sample timeoutMs (elapsed + 100) (k + 1)
    | .ok true => true
    | .ok false => pollLoopSpecContinue sample timeoutMs (elapsed + 100) (k + 1)
  else
    false
termination_by timeoutMs - elapsed
decreasing_by all_goals omega

/-- Modelled from the spec: `isElementVisible` as claim C1 describes it,
exceptions being absorbed as not-yet-true samples. -/
def isElementVisibleSpecContinue (sample : Nat → Except String Bool)
    (options : Option TimeoutOption) : Bool :=
  pollLoopSpecContinue sample (effTimeout options SMALL_TIMEOUT) 0 0

/-- Function `isElementChecked` (`src/utils/element-utils.ts` lines 199–208):

```
try {
  if (await isElementVisible(input, options)) {
    return await getLocator(input).isChecked(options);
  }
} catch (error) { console.log(`isElementChecked- …`); }
return false;
```

`checked` is the outcome of the `locator.isChecked(options)` call (which may
itself throw; the `catch` turns that into `return false`). -/
def isElementCheckedRun (sample : Nat → Except String Bool)
    (checked : Except String Bool) (options : Option TimeoutOption) :
    Except String Bool :=
  match isElementVisibleRun sample options with
  | .ok true =>
    match checked with
    | .ok b => .ok b
    | .error _ => .ok false  -- isChecked threw: caught, logged, return false
  | _ => .ok false

/-- Function `isElementAttached` (`src/utils/element-utils.ts` lines 134–145):

```
const timeoutInMs = options?.timeout || SMALL_TIMEOUT;
try {
  await locator.waitFor({ state: 'attached', timeout: timeoutInMs });
  return true;
} catch (error) { …; return false; }
```

`attachAt` is the environment: the time (ms from the call) at which the
element becomes attached, `none` if it never does.  `waitFor` resolves iff
that happens within its `timeout` and rejects otherwise; the rejection is
caught and turned into `false`. -/
def isElementAttached (attachAt : Option Nat)
    (options : Option TimeoutOption) : Bool :=
  let timeoutInMs := effTimeout options SMALL_TIMEOUT
  match attachAt with
  | some a => decide (a ≤ timeoutInMs)
  | none => false

/-- A page: an identity, the element ids of its document in document order,
and an abstract selector-match relation supplied by the environment. -/
structure Page where
  id : Nat
  dom : List Nat
  sel : String → Nat → Bool

/-- A Playwright locator: a lazy query bound to the page that created it.
`pinned` is `none` for an ordinary locator and `some e` for a per-node
handle produced by `Locator.all` (Playwright's `nth`-style handles). -/
structure Locator where
  page : Page
  selector : String
  pinned : Option Nat := none

/-- The `string | Locator` union used throughout the utility layer. -/
inductive LocatorInput where
  | str (s : String)
  | loc (l : Locator)

/-- Playwright's `page.locator(selector)`: constructs a fresh lazy locator
bound to the receiving page.  The optional `LocatorOptions` filter
(`has`/`hasText`) is not modelled; every call site relevant to the claims
passes it as `undefined`. -/
def Page.mkLocator (p : Page) (s : String) : Locator :=
  { page := p, selector := s, pinned := none }

/-- Function `getLocator` (`src/utils/locator-utils.ts` lines 28–30):

```
return typeof input === 'string' ? getPage().locator(input, options) : input;
```

`p` is the current live page (`getPage()`). -/
def getLocator (p : Page) (input : LocatorInput) : Locator :=
  match input with
  | .str s => p.mkLocator s
  | .loc l => l

/-- The element ids of `p.dom` matching selector `s`, in document order. -/
def matchingElems (p : Page) (s : String) : List Nat :=
  p.dom.filter (fun e => p.sel s e)

/-- Playwright's `locator.all()`: one handle per node currently matching the
locator's query, in document order; resolves to an empty array (it does not
reject) when nothing matches. -/
def Locator.all (l : Locator) : List Locator :=
  (matchingElems l.page l.selector).map
    (fun e => { page := l.page, selector := l.selector, pinned := some e })

/-- Function `getAllLocators` (`src/utils/locator-utils.ts` lines 93–95):

```
return typeof input === 'string'
  ? await getPage().locator(input, options).all() : await input.all();
```
-/
def getAllLocators (p : Page) (input : LocatorInput) : List Locator :=
  match input with
  | .str s => (p.mkLocator s).all
  | .loc l => l.all

/-- Function `getLocatorCount` (`src/utils/element-utils.ts` lines 111–121):

```
const timeoutInMs = options?.timeout || INSTANT_TIMEOUT;
try {
  if (await isElementAttached(input, { timeout: timeoutInMs })) {
    return (await getAllLocators(input)).length;
  }
} catch (error) { console.log(`getLocatorCount- …`); }
return 0;
```
-/
def getLocatorCount (p : Page) (attachAt : Option Nat) (input : LocatorInput)
    (options : Option TimeoutOption) : Nat :=
  let timeoutInMs := effTimeout options INSTANT_TIMEOUT
  if isElementAttached attachAt (some { timeout := some timeoutInMs }) then
    (getAllLocators p input).length
  else
    0

/-- A record handed to the winston logger: a level and a message. -/
structure LogRecord where
  level : String
  message : String
deriving Repr, DecidableEq

/-- Playwright's test-result statuses. -/
inductive TestStatus where
  | passed
  | failed
  | timedOut
  | skipped
  | interrupted
deriving Repr, DecidableEq

/-- The part of a Playwright `TestCase` the reporter reads. -/
structure TestCase where
  title : String
deriving Repr, DecidableEq

/-- The part of a Playwright `TestResult` the reporter reads. -/
structure TestResult where
  status : TestStatus
  error : Option String := none
deriving Repr, DecidableEq

/-- Method `CustomLogger.onTestBegin` (`src/setup/custom-logger.ts` lines
45–47): `logger.info(`Starting Test Case: ${test.title}`)`.  A method call
is modelled as the list of records it hands to the logger. -/
def onTestBegin (t : TestCase) : List LogRecord :=
  [{ level := "info", message := "Starting Test Case: " ++ t.title }]

/-- Method `CustomLogger.onTestEnd` (`src/setup/custom-logger.ts` lines
54–62): an info log with a green-colored message for `passed`, an info log
with a yellow-colored message for `skipped`; the `failed` branch is an
empty comment (Playwright's built-in reporter handles the error logging),
and `timedOut`/`interrupted` match no branch — no record in any of those
cases. -/
def onTestEnd (t : TestCase) (r : TestResult) : List LogRecord :=
  match r.status with
  | .passed =>
    [{ level := "info",
       message := "\x1b[32m" ++ "Test Case Passed: " ++ t.title ++ "\x1b[0m" }]
  | .skipped =>
    [{ level := "info",
       message := "\x1b[33m" ++ "Test Case Skipped: " ++ t.title ++ "\x1b[0m" }]
  | _ => []

/-- Method `CustomLogger.onError` (`src/setup/custom-logger.ts` lines
68–70): `logger.error(error.message)`. -/
def onError (message : String) : List LogRecord :=
  [{ level := "error", message := message }]

/-- The record stream the reporter produces for one test that begins and
then ends: the runner invokes `onTestBegin` and later `onTestEnd`, and each
record is logged synchronously, so the begin records precede the end
records. -/
def runTest (t : TestCase) (r : TestResult) : List LogRecord :=
  onTestBegin t ++ onTestEnd t r

/-- Winston `printf` formatter of `src/setup/custom-logger.ts` lines 27–29:

```
winston.format.printf(({ timestamp, level, message }) => {
  return `${timestamp} [${level}]: ${message}`;
})
```
-/
def formatLogLine (timestamp level message : String) : String :=
  timestamp ++ " [" ++ level ++ "]: " ++ message

/-- Rendering of one logger record at a given timestamp. -/
def renderLog (timestamp : String) (r : LogRecord) : String :=
  formatLogLine timestamp r.level r.message

/-- The part of Playwright's `TestInfo` the assertion layer reads:
`testInfo.errors`, the accumulated soft-assertion failures. -/
structure TestInfo where
  errors : List String
deriving Repr, DecidableEq

/-- Function `assertAllSoftAssertions` (`src/utils/action-utils.ts`,
assert-utils section, lines 233–235):
`expect(testInfo.errors).toHaveLength(0)`.  A hard `expect` resolves when
the length matches and throws an assertion error (failing the test)
otherwise; it does not modify `testInfo.errors`. -/
def assertAllSoftAssertions (testInfo : TestInfo) : Except String Unit :=
  if testInfo.errors.length = 0 then
    .ok ()
  else
    .error "expected testInfo.errors to have length 0"

/-- An error produced by a Playwright primitive. -/
inductive PWError where
  | timeoutError (what : String)
  | other (msg : String)
deriving Repr, DecidableEq

/-- Playwright load states. -/
inductive LoadState where
  | load
  | domcontentloaded
  | networkidle
  | commit
deriving Repr, DecidableEq

/-- Constant `LOADSTATE` of `playwright.config.ts`: `'domcontentloaded'`. -/
def LOADSTATE : LoadState := .domcontentloaded

/-- Type `ClickOptions` of `src/setup/optional-parameter-types.ts`:
Playwright click parameters (of which only `timeout` matters here) plus the
wrapper's own optional `loadState` member. -/
structure ClickOptions where
  timeout : Option Nat := none
  loadState : Option LoadState := none
deriving Repr, DecidableEq

/-- The environment `clickAndNavigate` runs against: the outcome of the
underlying `locator.click(options)` as a function of the options object the
wrapper forwards to it, the time (ms) at which the next `framenavigated`
event fires (`none` = never), and the time at which each load state is
reached (`none` = never). -/
structure NavEnv where
  clickResult : Option ClickOptions → Except PWError Unit
  navEventAt : Option Nat
  loadStateAt : LoadState → Option Nat

/-- Playwright's `page.waitForEvent('framenavigated', { timeout })`:
resolves iff the event fires within the timeout, rejects with a
TimeoutError otherwise. -/
def waitForFrameNavigated (env : NavEnv) (timeout : Nat) : Except PWError Unit :=
  match env.navEventAt with
  | some t => if t ≤ timeout then .ok () else .error (.timeoutError "framenavigated")
  | none => .error (.timeoutError "framenavigated")

/-- Playwright's `page.waitForLoadState(state, { timeout })`. -/
def waitForLoadStateWithin (env : NavEnv) (state : LoadState) (timeout : Nat) :
    Except PWError Unit :=
  match env.loadStateAt state with
  | some t => if t ≤ timeout then .ok () else .error (.timeoutError "loadstate")
  | none => .error (.timeoutError "loadstate")

/-- JavaScript `Promise.all([a, b])` on two settled outcomes: resolves iff
both resolve, otherwise rejects with a rejection reason of one of the two. -/
def promiseAll2 (a b : Except PWError Unit) : Except PWError Unit :=
  match a, b with
  | .ok _, .ok _ => .ok ()
  | .error e, _ => .error e
  | .ok _, .error e => .error e

/-- The effective timeout `clickAndNavigate` computes on its first line:
`const timeout = options?.timeout || STANDARD_TIMEOUT`. -/
def clickAndNavTimeout (options : Option ClickOptions) : Nat :=
  jsOrDefault (options.bind (·.timeout)) STANDARD_TIMEOUT

/-- Function `clickAndNavigate` (`src/utils/action-utils.ts` lines 83–89):

```
const timeout = options?.timeout || STANDARD_TIMEOUT;
await Promise.all([click(input, options),
                   getPage().waitForEvent('framenavigated', { timeout: timeout })]);
await getPage().waitForLoadState(options?.loadState || LOADSTATE,
                                 { timeout: timeout });
```

Note that the untouched `options` object is forwarded to `click` (hence to
`locator.click`), while only the defaulted `timeout` reaches the two waits.
The function does not touch the soft-assertion error list, which is
threaded through unchanged. -/
def clickAndNavigate (env : NavEnv) (softErrors : List String)
    (options : Option ClickOptions) : Except PWError Unit × List String :=
  let timeout := clickAndNavTimeout options
  match promiseAll2 (env.clickResult options) (waitForFrameNavigated env timeout) with
  | .error e => (.error e, softErrors)
  | .ok _ =>
    match waitForLoadStateWithin env ((options.bind (·.loadState)).getD LOADSTATE) timeout with
    | .error e => (.error e, softErrors)
    | .ok _ => (.ok (), softErrors)

/-- Sample stream whose first draw throws and whose second draw is visible:
the element is detached at the first poll and visible from then on. -/
def sampleErrThenTrue : Nat → Except String Bool :=
  fun k => if k = 0 then .error "Element is detached" else .ok true

/-- Sample stream that is not-yet-visible once and then throws: the element
stays invisible for one poll and is destroyed before the second. -/
def sampleFalseThenErr : Nat → Except String Bool :=
  fun k => if k = 0 then .ok false else .error "Element is detached"

/-- A click environment realisable under Playwright's documented semantics
for `locator.click`: the target becomes actionable only after the
configured `actionTimeout`, so a click with `timeout: 0` (which disables
the action timeout) eventually succeeds, while a click with `timeout`
omitted (which falls back to the configured `actionTimeout`) rejects with a
TimeoutError.  Navigation and load state complete immediately. -/
def clickEnvCE : NavEnv where
  clickResult := fun o =>
    match o with
    | some co => if co.timeout = some 0 then .ok () else .error (.timeoutError "click")
    | none => .error (.timeoutError "click")
  navEventAt := some 0
  loadStateAt := fun _ => some 0

/-- Environment for the C3 witness: the click resolves, the `framenavigated`
event never fires, load states are reached immediately. -/
def navEnvNoNavigation : NavEnv where
  clickResult := fun _ => .ok ()
  navEventAt := none
  loadStateAt := fun _ => some 0

/-- Concrete page for witnesses: three elements, of which the odd-numbered
ones match selector "li" and none matches "div". -/
def pageW : Page where
  id := 0
  dom := [1, 2, 3]
  sel := fun s e => (s == "li") && (e % 2 == 1)

/-!
## Helper lemmas about the polling loop
-/

/-- If every sample is a false sample, the loop exhausts its budget and
returns `.ok false`. -/
theorem pollLoop_all_false (sample : Nat → Except String Bool) (t : Nat)
    (hall : ∀ i, sample i = .ok false) :
    ∀ e k, pollLoop sample t e k = .ok false := by
  intro e k
  induction e, k using pollLoop.induct sample t with
  | case1 el k h e hm => rw [hall k] at hm; cases hm
  | case2 el k h hm => rw [hall k] at hm; cases hm
  | case3 el k h hm ih => rw [pollLoop]; simpa [h, hm] using ih
  | case4 el k h => rw [pollLoop]; simp [h]

/-- If the samples from index `k` on are false until index `j`, at which the
sample throws, and the `j`-th sample still falls inside the budget, then the
loop escapes with that exception. -/
theorem pollLoop_err_stops (sample : Nat → Except String Bool) (t : Nat) :
    ∀ e k j msg, (∀ i, k ≤ i → i < j → sample i = .ok false) → k ≤ j →
      sample j = .error msg → 100 * (j - k) + e < t →
      pollLoop sample t e k = .error msg := by
  intro e k
  induction e, k using pollLoop.induct sample t with
  | case1 el k h e hm =>
    intro j msg hprev hkj herr _
    rcases Nat.eq_or_lt_of_le hkj with rfl | hlt
    · rw [pollLoop]; rw [herr] at hm; cases hm; simp [h, herr]
    · rw [hprev k le_rfl hlt] at hm; cases hm
  | case2 el k h hm =>
    intro j msg hprev hkj herr _
    rcases Nat.eq_or_lt_of_le hkj with rfl | hlt
    · rw [herr] at hm; cases hm
    · rw [hprev k le_rfl hlt] at hm; cases hm
  | case3 el k h hm ih =>
    intro j msg hprev hkj herr hbud
    rcases Nat.eq_or_lt_of_le hkj with rfl | hlt
    · rw [herr] at hm; cases hm
    · rw [pollLoop]; simp [h, hm]
      exact ih j msg (fun i hi hij => hprev i (by omega) hij) (by omega) herr (by omega)
  | case4 el k h =>
    intro j msg _ _ _ hbud; omega

/-- If the samples from index `k` on are false until index `j`, at which the
sample is true, and the `j`-th sample still falls inside the budget, then
the loop returns `.ok true`. -/
theorem pollLoop_true_hits (sample : Nat → Except String Bool) (t : Nat) :
    ∀ e k j, (∀ i, k ≤ i → i < j → sample i = .ok false) → k ≤ j →
      sample j = .ok true → 100 * (j - k) + e < t →
      pollLoop sample t e k = .ok true := by
  intro e k
  induction e, k using pollLoop.induct sample t with
  | case1 el k h e hm =>
    intro j hprev hkj htrue _
    rcases Nat.eq_or_lt_of_le hkj with rfl | hlt
    · rw [htrue] at hm; cases hm
    · rw [hprev k le_rfl hlt] at hm; cases hm
  | case2 el k h hm =>
    intro j hprev hkj htrue _
    rw [pollLoop]; simp [h, hm]
  | case3 el k h hm ih =>
    intro j hprev hkj htrue hbud
    rcases Nat.eq_or_lt_of_le hkj with rfl | hlt
    · rw [htrue] at hm; cases hm
    · rw [pollLoop]; simp [h, hm]
      exact ih j (fun i hi hij => hprev i (by omega) hij) (by omega) htrue (by omega)
  | case4 el k h =>
    intro j _ _ _ hbud; omega

/-- With only false samples the loop draws one sample per started 100 ms
slice of the remaining budget. -/
theorem pollSampleCount_all_false (sample : Nat → Except String Bool) (t : Nat)
    (hall : ∀ i, sample i = .ok false) :
    ∀ e k, pollSampleCount sample t e k = (t - e + 99) / 100 := by
  intro e k
  induction e, k using pollSampleCount.induct sample t with
  | case1 el k h e hm => rw [hall k] at hm; cases hm
  | case2 el k h hm => rw [hall k] at hm; cases hm
  | case3 el k h hm ih =>
    rw [pollSampleCount]
    simp only [h, if_true, hm]
    rw [ih]
    omega
  | case4 el k h =>
    rw [pollSampleCount]
    simp only [h, if_false]
    omega

/-- The two pollers never reject: the enclosing `try`/`catch` converts every
escaping exception into a resolved `false`. -/
theorem poller_never_throws (sample : Nat → Except String Bool)
    (options : Option TimeoutOption) :
    (∃ b, isElementVisibleRun sample options = .ok b) ∧
    (∃ b, isElementHiddenRun sample options = .ok b) := by
  constructor
  · rw [isElementVisibleRun]
    rcases pollLoop sample (effTimeout options SMALL_TIMEOUT) 0 0 with e | b
    · exact ⟨false, rfl⟩
    · exact ⟨b, rfl⟩
  · rw [isElementHiddenRun]
    rcases pollLoop sample (effTimeout options SMALL_TIMEOUT) 0 0 with e | b
    · exact ⟨false, rfl⟩
    · exact ⟨b, rfl⟩

/-- An explicitly overridden positive timeout is the effective timeout. -/
theorem effTimeout_pos (t d : Nat) (ht : 0 < t) :
    effTimeout (some { timeout := some t }) d = t := by
  obtain ⟨n, rfl⟩ : ∃ n, t = n + 1 := ⟨t - 1, by omega⟩
  rfl

/-!
## Claim theorems
-/

/-- Claim C1, counterexample: the claim says an exception from a sample is
treated as a not-yet-true sample and polling continues for the rest of the
budget.  For the sample stream that throws once and is visible from the
second sample on, with a 300 ms budget, the claimed poller (modelled as
`isElementVisibleSpecContinue`) reports true, but the code stops polling at
the exception and reports false. -/
theorem poller_exception_continue_cex :
    isElementVisibleRun sampleErrThenTrue (some { timeout := some 300 }) = .ok false ∧
    isElementVisibleSpecContinue sampleErrThenTrue (some { timeout := some 300 }) = true := by
  constructor
  · rw [isElementVisibleRun, effTimeout_pos 300 _ (by norm_num), pollLoop]
    simp [sampleErrThenTrue]
  · rw [isElementVisibleSpecContinue, effTimeout_pos 300 _ (by norm_num),
      pollLoopSpecContinue]
    simp only [sampleErrThenTrue, if_pos rfl]
    rw [if_pos (by norm_num : (0:Nat) < 300), pollLoopSpecContinue]
    norm_num
    simp [sampleErrThenTrue]

/-- Claim C1 as amended: the element-state pollers `isElementVisible` and
`isElementHidden` never throw — any exception raised by a sample is caught,
logged, and turned into a resolved `false` — but polling does not continue
past the exception: the first throwing sample (reached within the budget,
with only not-yet-true samples before it) ends the poll immediately with
result false, abandoning the remaining budget. -/
theorem poller_catches_and_stops (sample : Nat → Except String Bool)
    (options : Option TimeoutOption) (j : Nat) (msg : String)
    (hprev : ∀ i, i < j → sample i = .ok false)
    (herr : sample j = .error msg)
    (hbudget : 100 * j < effTimeout options SMALL_TIMEOUT) :
    isElementVisibleRun sample options = .ok false ∧
    isElementHiddenRun sample options = .ok false ∧
    (∀ s o, (∃ b, isElementVisibleRun s o = .ok b) ∧
            (∃ b, isElementHiddenRun s o = .ok b)) := by
  have hpoll : pollLoop sample (effTimeout options SMALL_TIMEOUT) 0 0 = .error msg :=
    pollLoop_err_stops sample _ 0 0 j msg (fun i _ hij => hprev i hij)
      (Nat.zero_le j) herr (by omega)
  refine ⟨?_, ?_, fun s o => poller_never_throws s o⟩
  · rw [isElementVisibleRun, hpoll]
  · rw [isElementHiddenRun, hpoll]

/-- Claim C1, witness: an element that is not yet visible at the first poll
and whose second sample throws; with a 300 ms budget both pollers resolve
to false. -/
theorem poller_catches_and_stops_witness :
    isElementVisibleRun sampleFalseThenErr (some { timeout := some 300 }) = .ok false ∧
    isElementHiddenRun sampleFalseThenErr (some { timeout := some 300 }) = .ok false := by
  have h := poller_catches_and_stops sampleFalseThenErr (some { timeout := some 300 }) 1
    "Element is detached"
    (fun i hi => by
      have hi0 : i = 0 := by omega
      subst hi0; rfl)
    rfl
    (by rw [effTimeout_pos 300 _ (by norm_num)]; norm_num)
  exact ⟨h.1, h.2.1⟩

/-- Claim C2: for every positive effective budget the poller samples the
predicate immediately and returns true as soon as any in-budget sample is
true; with a never-true predicate it returns false (never true) after
drawing one sample per started 100 ms slice of the budget — 3 samples for a
300 ms budget. -/
theorem poller_sampling_semantics (sample : Nat → Except String Bool)
    (t : Nat) (ht : 0 < t) :
    (sample 0 = .ok true →
      isElementVisibleRun sample (some { timeout := some t }) = .ok true) ∧
    (∀ j, (∀ i, i < j → sample i = .ok false) → sample j = .ok true →
      100 * j < t →
      isElementVisibleRun sample (some { timeout := some t }) = .ok true) ∧
    ((∀ i, sample i = .ok false) →
      isElementVisibleRun sample (some { timeout := some t }) = .ok false) ∧
    ((∀ i, sample i = .ok false) →
      pollSampleCount sample t 0 0 = (t + 99) / 100) ∧
    pollSampleCount (fun _ => .ok false) 300 0 0 = 3 := by
  refine ⟨?_, ?_, ?_, ?_, ?_⟩
  · intro h0
    rw [isElementVisibleRun, effTimeout_pos t _ ht,
      pollLoop_true_hits sample t 0 0 0 (fun i _ hij => absurd hij (by omega))
        le_rfl h0 (by omega)]
  · intro j hprev htrue hbud
    rw [isElementVisibleRun, effTimeout_pos t _ ht,
      pollLoop_true_hits sample t 0 0 j (fun i _ hij => hprev i hij)
        (Nat.zero_le j) htrue (by omega)]
  · intro hall
    rw [isElementVisibleRun, effTimeout_pos t _ ht,
      pollLoop_all_false sample t hall 0 0]
  · intro hall
    rw [pollSampleCount_all_false sample t hall 0 0]
    omega
  · rw [pollSampleCount_all_false (fun _ => .ok false) 300 (fun i => rfl) 0 0]

/-- Claim C2, witness: with a 300 ms budget an immediately-true predicate
yields true, a never-true predicate yields false after exactly 3 samples. -/
theorem poller_sampling_semantics_witness :
    isElementVisibleRun (fun _ => .ok true) (some { timeout := some 300 }) = .ok true ∧
    isElementVisibleRun (fun _ => .ok false) (some { timeout := some 300 }) = .ok false ∧
    pollSampleCount (fun _ => .ok false) 300 0 0 = 3 :=
  ⟨(poller_sampling_semantics (fun _ => .ok true) 300 (by norm_num)).1 rfl,
   (poller_sampling_semantics (fun _ => .ok false) 300 (by norm_num)).2.2.1 (fun i => rfl),
   (poller_sampling_semantics (fun _ => .ok false) 300 (by norm_num)).2.2.2.2⟩

/-- Claim C3: if the click resolves but no `framenavigated` event occurs
within the effective timeout (the override, or `STANDARD_TIMEOUT` when no
override is given), `clickAndNavigate` rejects with the navigation
TimeoutError — the failure is not converted into a boolean — and the
soft-assertion error list is returned unchanged. -/
theorem clickAndNavigate_nav_timeout_propagates (env : NavEnv)
    (softErrors : List String) (options : Option ClickOptions)
    (hclick : env.clickResult options = .ok ())
    (hnav : ∀ tn, env.navEventAt = some tn → clickAndNavTimeout options < tn) :
    clickAndNavigate env softErrors options =
      (.error (.timeoutError "framenavigated"), softErrors) ∧
    clickAndNavTimeout none = STANDARD_TIMEOUT := by
  have hw : waitForFrameNavigated env (clickAndNavTimeout options) =
      .error (.timeoutError "framenavigated") := by
    cases h : env.navEventAt with
    | none => rw [waitForFrameNavigated, h]
    | some tn =>
      rw [waitForFrameNavigated, h]
      simp [Nat.not_le.mpr (hnav tn h)]
  refine ⟨?_, rfl⟩
  simp [clickAndNavigate, hclick, hw, promiseAll2]

/-- Claim C3, witness: a click that resolves while navigation never fires,
with one previously recorded soft failure and no timeout override. -/
theorem clickAndNavigate_nav_timeout_witness :
    clickAndNavigate navEnvNoNavigation ["prior soft failure"] none =
      (.error (.timeoutError "framenavigated"), ["prior soft failure"]) :=
  (clickAndNavigate_nav_timeout_propagates navEnvNoNavigation
    ["prior soft failure"] none rfl
    (fun tn h => by simp [navEnvNoNavigation] at h)).1

/-- Claim C4: `onTestBegin` emits exactly the one info-level starting
record; `onTestEnd` emits exactly one info-level record for a passed or a
skipped result (color-coded green resp. yellow) and no record for a failed
result; in the stream of one observed test the begin record strictly
precedes every end record. -/
theorem reporter_logs_per_status (t : TestCase) (r : TestResult) :
    onTestBegin t =
      [{ level := "info", message := "Starting Test Case: " ++ t.title }] ∧
    (r.status = .passed → onTestEnd t r =
      [{ level := "info",
         message := "\x1b[32m" ++ "Test Case Passed: " ++ t.title ++ "\x1b[0m" }]) ∧
    (r.status = .skipped → onTestEnd t r =
      [{ level := "info",
         message := "\x1b[33m" ++ "Test Case Skipped: " ++ t.title ++ "\x1b[0m" }]) ∧
    (r.status = .failed → onTestEnd t r = []) ∧
    runTest t r =
      { level := "info", message := "Starting Test Case: " ++ t.title } ::
        onTestEnd t r := by
  obtain ⟨st, er⟩ := r
  refine ⟨rfl, ?_, ?_, ?_, rfl⟩ <;> intro h <;> cases st <;> simp_all [onTestEnd]

/-- Claim C4, witness: a test that begins and passes produces exactly the
starting record followed by the green passed record. -/
theorem reporter_logs_per_status_witness :
    runTest { title := "T" } { status := .passed, error := none } =
      [{ level := "info", message := "Starting Test Case: T" },
       { level := "info",
         message := "\x1b[32m" ++ "Test Case Passed: T" ++ "\x1b[0m" }] := by
  have h := reporter_logs_per_status { title := "T" } { status := .passed, error := none }
  rw [h.2.2.2.2, h.2.1 rfl]
  decide

/-- Claim C5: `assertAllSoftAssertions`, called with `N` accumulated soft
failures, passes iff `N = 0` and fails (throws the assertion error) iff the
recorded list is non-empty. -/
theorem assertAllSoftAssertions_iff (errs : List String) (n : Nat)
    (hn : errs.length = n) :
    ((assertAllSoftAssertions { errors := errs } = .ok ()) ↔ n = 0) ∧
    ((∃ e, assertAllSoftAssertions { errors := errs } = .error e) ↔ errs ≠ []) := by
  subst hn
  by_cases h : errs = []
  · subst h; simp [assertAllSoftAssertions]
  · simp [assertAllSoftAssertions, h, List.length_eq_zero]

/-- Claim C5, witness: two recorded soft failures make the finalizing call
fail; the empty list makes it pass. -/
theorem assertAllSoftAssertions_iff_witness :
    ((assertAllSoftAssertions { errors := ["e1", "e2"] } = .ok ()) ↔ (2 : Nat) = 0) ∧
    ((∃ e, assertAllSoftAssertions { errors := ["e1", "e2"] } = .error e) ↔
      (["e1", "e2"] : List String) ≠ []) :=
  assertAllSoftAssertions_iff ["e1", "e2"] 2 rfl

/-- Claim C6: `getLocator` is the identity on already-resolved `Locator`
inputs (so resolving twice equals resolving once), and on a string input it
constructs on each call a fresh locator bound to the page that is current
at that call — there is no cache. -/
theorem getLocator_passthrough_fresh (p p2 : Page) (l : Locator) (s : String)
    (input : LocatorInput) :
    getLocator p (.loc l) = l ∧
    getLocator p (.loc (getLocator p2 input)) = getLocator p2 input ∧
    getLocator p (.str s) = { page := p, selector := s, pinned := none } ∧
    (getLocator p (.str s)).page = p ∧
    (getLocator p2 (.str s)).page = p2 :=
  ⟨rfl, rfl, rfl, rfl, rfl⟩

/-- Claim C7: `getAllLocators` resolves via `locator.all()` to one handle
per matching node of the current document, in document order (the matched
ids form a sublist of the document), and resolves to the empty sequence —
rather than an error — when nothing matches. -/
theorem getAllLocators_ordered_possibly_empty (p : Page) (input : LocatorInput)
    (s : String) :
    getAllLocators p input = (getLocator p input).all ∧
    (getAllLocators p input).length =
      (matchingElems (getLocator p input).page (getLocator p input).selector).length ∧
    (getAllLocators p input).map (fun h => h.pinned) =
      (matchingElems (getLocator p input).page (getLocator p input).selector).map some ∧
    List.Sublist (matchingElems (getLocator p input).page (getLocator p input).selector)
      (getLocator p input).page.dom ∧
    (matchingElems p s = [] → getAllLocators p (.str s) = []) := by
  refine ⟨?_, ?_, ?_, ?_, ?_⟩
  · cases input <;> rfl
  · cases input <;> simp [getAllLocators, Locator.all, getLocator, Page.mkLocator]
  · cases input <;> simp [getAllLocators, Locator.all, getLocator, Page.mkLocator]
  · exact List.filter_sublist _
  · intro h
    simp [getAllLocators, Locator.all, getLocator, Page.mkLocator, h]

/-- Claim C7, witness: against the concrete page `pageW`, the selector
"div" matches nothing and resolves to the empty sequence; "li" resolves to
the two matching nodes 1 and 3 in document order. -/
theorem getAllLocators_witness :
    getAllLocators pageW (.str "div") = [] ∧
    (getAllLocators pageW (.str "li")).map (fun h => h.pinned) =
      [some 1, some 3] := by
  have h1 := (getAllLocators_ordered_possibly_empty pageW (.str "div") "div").2.2.2.2
  have h2 := (getAllLocators_ordered_possibly_empty pageW (.str "li") "li").2.2.1
  refine ⟨h1 (by decide), ?_⟩
  rw [h2]
  decide

/-- Claim C8: every line the logger formats is exactly the timestamp, a
space, the level in square brackets, a colon-space, and the message; its
length is determined accordingly, the message is recoverable (the format is
injective in the message), and every record the reporter emits renders in
exactly that shape. -/
theorem logLine_format (ts lvl msg m2 : String) (t : TestCase) (r : TestResult) :
    formatLogLine ts lvl msg = ts ++ " [" ++ lvl ++ "]: " ++ msg ∧
    (formatLogLine ts lvl msg).length =
      ts.length + lvl.length + msg.length + 5 ∧
    (formatLogLine ts lvl msg = formatLogLine ts lvl m2 → msg = m2) ∧
    (∀ rec ∈ runTest t r,
      renderLog ts rec = ts ++ " [" ++ rec.level ++ "]: " ++ rec.message) := by
  refine ⟨rfl, ?_, ?_, fun rec _ => rfl⟩
  · have h2 : (" [" : String).length = 2 := rfl
    have h3 : ("]: " : String).length = 3 := rfl
    simp [formatLogLine, String.length_append, h2, h3]
    omega
  · intro h
    have hd : (formatLogLine ts lvl msg).data = (formatLogLine ts lvl m2).data := by
      rw [h]
    simp [formatLogLine, String.data_append] at hd
    exact String.ext hd

/-- Claim C8, witness: a concrete line renders as
"2024-01-01 [info]: hello" with length 24. -/
theorem logLine_format_witness :
    formatLogLine "2024-01-01" "info" "hello" = "2024-01-01 [info]: hello" ∧
    (formatLogLine "2024-01-01" "info" "hello").length = 24 := by
  have h := logLine_format "2024-01-01" "info" "hello" "hello"
    { title := "T" } { status := .passed, error := none }
  refine ⟨?_, ?_⟩
  · rw [h.1]; decide
  · rw [h.2.1]; decide

/-- Claim C9: when the visibility poll resolves to false (the element never
becomes visible within the budget), `isElementChecked` resolves to false
whatever the underlying checked state would have reported — the checked
state is consulted only after a successful visibility poll. -/
theorem isElementChecked_requires_visibility (sample : Nat → Except String Bool)
    (checked : Except String Bool) (options : Option TimeoutOption)
    (hvis : isElementVisibleRun sample options = .ok false) :
    isElementCheckedRun sample checked options = .ok false ∧
    (∀ c2, isElementCheckedRun sample checked options =
      isElementCheckedRun sample c2 options) := by
  constructor
  · rw [isElementCheckedRun.eq_def, hvis]
  · intro c2
    rw [isElementCheckedRun.eq_def, hvis, isElementCheckedRun.eq_def, hvis]

/-- Claim C9, witness: a checkbox that is in fact checked but never visible
within a 1 ms budget is reported as unchecked. -/
theorem isElementChecked_requires_visibility_witness :
    isElementCheckedRun (fun _ => .ok false) (.ok true)
      (some { timeout := some 1 }) = .ok false := by
  have hvis : isElementVisibleRun (fun _ => .ok false)
      (some { timeout := some 1 }) = .ok false := by
    rw [isElementVisibleRun, pollLoop_all_false (fun _ => .ok false) _ (fun i => rfl) 0 0]
  exact (isElementChecked_requires_visibility (fun _ => .ok false) (.ok true)
    (some { timeout := some 1 }) hvis).1

/-- Claim C10, counterexample: for `clickAndNavigate` the call with
`timeout: 0` is distinguishable from the call with options omitted, because
the options object is forwarded verbatim to the underlying `locator.click`,
where an explicit 0 disables Playwright's action timeout while an omitted
timeout selects the configured default.  In the environment `clickEnvCE`
(realisable under exactly those semantics) the two calls give different
results. -/
theorem timeout_zero_clickAndNavigate_cex :
    clickAndNavigate clickEnvCE [] (some { timeout := some 0 }) ≠
      clickAndNavigate clickEnvCE [] none := by
  have h1 : clickAndNavigate clickEnvCE [] (some { timeout := some 0 }) =
      (.ok (), []) := rfl
  have h2 : clickAndNavigate clickEnvCE [] none =
      (.error (.timeoutError "click"), []) := rfl
  rw [h1, h2]
  simp

/-- Claim C10 as amended: for `isElementAttached`, `isElementVisible`,
`isElementHidden` and `getLocatorCount` an explicit `timeout: 0` override
is indistinguishable from passing no options — the falsy 0 is replaced by
the operation's default budget; for `clickAndNavigate` the defaulting
applies to the navigation-event and load-state waits (its effective timeout
is the standard budget under either call), but not to the forwarded click
options. -/
theorem timeout_zero_equals_default (p : Page) (attachAt : Option Nat)
    (input : LocatorInput) (sample : Nat → Except String Bool) :
    isElementAttached attachAt (some { timeout := some 0 }) =
      isElementAttached attachAt none ∧
    isElementVisibleRun sample (some { timeout := some 0 }) =
      isElementVisibleRun sample none ∧
    isElementHiddenRun sample (some { timeout := some 0 }) =
      isElementHiddenRun sample none ∧
    getLocatorCount p attachAt input (some { timeout := some 0 }) =
      getLocatorCount p attachAt input none ∧
    clickAndNavTimeout (some { timeout := some 0 }) = clickAndNavTimeout none :=
  ⟨rfl, rfl, rfl, rfl, rfl⟩
